import Mathlib

/-!
Verification of the Smart Work Sequencer analytics and reporting engine.

The definitions below are shallow embeddings of the Python services:
* `generate_effort_analysis` — AIService.generate_effort_analysis (ai_service.py)
* `extract_ticket_keys` / `findTicketMatches` — GitHubService.extract_ticket_keys
  and the regex ([A-Z]+-\d+) scan (github_service.py)
Timestamps are modelled as integers, statuses and keys as strings, and the
per-user record store as lists of records.
-/

namespace SWS

/-! ## Effort classifier (ai_service.py, AIService.generate_effort_analysis) -/

/-- The completed statuses compared against in ai_service.py
(the literal list used at lines 118 and 134). -/
def completedStatuses : List String := ["done", "closed", "resolved"]

/-- time_logged_hours = time_logged_seconds / 3600, real (rational) division
as in Python. -/
def hoursOf (timeLoggedSeconds : Int) : ℚ := (timeLoggedSeconds : ℚ) / 3600

/-- str.lower(), character by character (ASCII, which covers the statuses
compared against). -/
def pyLower (s : String) : String := String.mk (s.data.map Char.toLower)

/-- AIService.generate_effort_analysis, classification component.
Mirrors the if/elif chain of the source: the first test is on the lowered
status alone; the high-effort and stalled branches are elif alternatives to
it, so they are never reached when the status is done/closed/resolved. -/
def generate_effort_analysis (commitsCount : Nat) (timeLoggedSeconds : Int)
    (statusChanges : Nat) (status : String) : String :=
  let currentStatus := pyLower status
  let timeLoggedHours := hoursOf timeLoggedSeconds
  if currentStatus ∈ completedStatuses then
    if commitsCount ≤ 3 ∧ timeLoggedHours ≤ 2 then "fast_win" else "normal"
  else if commitsCount > 5 ∧ statusChanges = 0 then "high_effort_low_output"
  else if timeLoggedHours > 8 ∧ statusChanges = 0 then "high_effort_low_output"
  else if commitsCount > 0 ∨ 0 < timeLoggedHours then
    if statusChanges = 0 ∧ currentStatus ∉ completedStatuses then "stalled" else "normal"
  else "normal"

/-- The decision policy exactly as claim C1 words it: four rules evaluated
top-down with first match winning, rule 2 (high_effort_low_output) carrying
no condition on the current status. -/
def claimEffortPolicy (commitsCount : Nat) (timeLoggedSeconds : Int)
    (statusChanges : Nat) (status : String) : String :=
  let currentStatus := pyLower status
  let timeLoggedHours := hoursOf timeLoggedSeconds
  if currentStatus ∈ completedStatuses ∧ commitsCount ≤ 3 ∧ timeLoggedHours ≤ 2 then
    "fast_win"
  else if (commitsCount > 5 ∧ statusChanges = 0) ∨
      (timeLoggedHours > 8 ∧ statusChanges = 0) then
    "high_effort_low_output"
  else if (commitsCount > 0 ∨ 0 < timeLoggedSeconds) ∧ statusChanges = 0 ∧
      currentStatus ∉ completedStatuses then
    "stalled"
  else "normal"

/-- The amended policy: as claim C1, except that the high_effort_low_output
and stalled rules are only reachable when the current status is not
done/closed/resolved; a done/closed/resolved ticket that fails the fast_win
thresholds is classified normal. -/
def amendedEffortPolicy (commitsCount : Nat) (timeLoggedSeconds : Int)
    (statusChanges : Nat) (status : String) : String :=
  let currentStatus := pyLower status
  let timeLoggedHours := hoursOf timeLoggedSeconds
  if currentStatus ∈ completedStatuses then
    if commitsCount ≤ 3 ∧ timeLoggedHours ≤ 2 then "fast_win" else "normal"
  else if (commitsCount > 5 ∧ statusChanges = 0) ∨
      (timeLoggedHours > 8 ∧ statusChanges = 0) then
    "high_effort_low_output"
  else if (commitsCount > 0 ∨ 0 < timeLoggedSeconds) ∧ statusChanges = 0 then
    "stalled"
  else "normal"

theorem hoursOf_pos_iff (t : Int) : 0 < hoursOf t ↔ 0 < t := by
  unfold hoursOf
  rw [lt_div_iff₀ (by norm_num : (0 : ℚ) < 3600)]
  simp

theorem hoursOf_le_two_iff (t : Int) : hoursOf t ≤ 2 ↔ t ≤ 7200 := by
  unfold hoursOf
  rw [div_le_iff₀ (by norm_num : (0 : ℚ) < 3600)]
  norm_num
  exact_mod_cast Iff.rfl

theorem hoursOf_gt_eight_iff (t : Int) : 8 < hoursOf t ↔ 28800 < t := by
  unfold hoursOf
  rw [lt_div_iff₀ (by norm_num : (0 : ℚ) < 3600)]
  norm_num
  exact_mod_cast Iff.rfl

/-- The classifier with its hour thresholds rescaled to seconds (2h = 7200s,
8h = 28800s): an integer-only equivalent of generate_effort_analysis used to
evaluate it on concrete inputs (rational division does not reduce in the
kernel). -/
def effortDecider (commitsCount : Nat) (timeLoggedSeconds : Int)
    (statusChanges : Nat) (status : String) : String :=
  let currentStatus := pyLower status
  if currentStatus ∈ completedStatuses then
    if commitsCount ≤ 3 ∧ timeLoggedSeconds ≤ 7200 then "fast_win" else "normal"
  else if commitsCount > 5 ∧ statusChanges = 0 then "high_effort_low_output"
  else if timeLoggedSeconds > 28800 ∧ statusChanges = 0 then "high_effort_low_output"
  else if commitsCount > 0 ∨ 0 < timeLoggedSeconds then
    if statusChanges = 0 ∧ currentStatus ∉ completedStatuses then "stalled" else "normal"
  else "normal"

theorem generate_effort_analysis_eq_decider (commitsCount : Nat)
    (timeLoggedSeconds : Int) (statusChanges : Nat) (status : String) :
    generate_effort_analysis commitsCount timeLoggedSeconds statusChanges status =
      effortDecider commitsCount timeLoggedSeconds statusChanges status := by
  simp only [generate_effort_analysis, effortDecider, hoursOf_le_two_iff,
    hoursOf_gt_eight_iff, hoursOf_pos_iff]

/-! ## Linker (github_service.py, GitHubService.extract_ticket_keys) -/

/-- One pass of re.findall with the pattern ([A-Z]+-\d+): scan left to right;
at a position starting an uppercase run, the greedy run must be followed by a
hyphen and at least one digit for a match (backtracking inside the run cannot
succeed, since a hyphen never occurs inside it); on a match, the scan resumes
after the digits, otherwise one character later.  The fuel argument bounds
recursion and is started at the length of the list, which the scan never
outruns. -/
def findTicketMatchesAux : Nat → List Char → List String
  | 0, _ => []
  | _ + 1, [] => []
  | fuel + 1, c :: cs =>
    let u := List.takeWhile Char.isUpper (c :: cs)
    if u.isEmpty then findTicketMatchesAux fuel cs
    else
      match List.dropWhile Char.isUpper (c :: cs) with
      | '-' :: r2 =>
        let d := List.takeWhile Char.isDigit r2
        if d.isEmpty then findTicketMatchesAux fuel cs
        else
          String.mk (u ++ '-' :: d) ::
            findTicketMatchesAux fuel (List.dropWhile Char.isDigit r2)
      | _ => findTicketMatchesAux fuel cs

/-- TICKET_PATTERN.findall(commit_message). -/
def findTicketMatches (s : String) : List String :=
  findTicketMatchesAux s.data.length s.data

/-- GitHubService.extract_ticket_keys: findall then list(set(...)) — the
distinct matches, order immaterial (modelled as List.dedup). -/
def extract_ticket_keys (commitMessage : String) : List String :=
  (findTicketMatches commitMessage).dedup

/-! ## Record model (core/models.py), scoped to one user -/

/-- Ticket (core/models.py): the fields the analytics read. tid models the
primary key id; key is the Jira key such as PROJ-123. -/
structure Ticket where
  tid : Nat
  key : String
  status : String
  deriving Repr, DecidableEq

/-- Commit (core/models.py) as stored by the ingest: ticket is the optional
foreign key (by ticket id), is_unlinked the stored flag. -/
structure Commit where
  sha : String
  message : String
  committedAt : Int
  ticket : Option Nat
  extractedTicketKeys : List String
  is_unlinked : Bool
  deriving Repr, DecidableEq

/-- TicketActivity (core/models.py): the fields the analytics read. -/
structure TicketActivity where
  ticketId : Nat
  activityType : String
  toStatus : String
  activityAt : Int
  deriving Repr, DecidableEq

/-- Worklog (core/models.py): the fields the analytics read. -/
structure Worklog where
  ticketId : Nat
  timeSpentSeconds : Int
  startedAt : Int
  deriving Repr, DecidableEq

/-- HygieneAlert (core/models.py): dedup-key fields plus severity.  Commits
are referenced by sha (unique per user and repository). -/
structure HygieneAlert where
  alertType : String
  severity : String
  ticketRef : Option Nat
  commitRef : Option String
  detectedForStart : Int
  detectedForEnd : Int
  deriving Repr, DecidableEq

/-- One user's record store. -/
structure DB where
  tickets : List Ticket
  commits : List Commit
  activities : List TicketActivity
  worklogs : List Worklog
  deriving Repr

/-- An inclusive [since, until] window of timestamps. -/
structure Window where
  since : Int
  til : Int
  deriving Repr, DecidableEq

def inWindow (w : Window) (t : Int) : Bool :=
  decide (w.since ≤ t) && decide (t ≤ w.til)

/-! ## Commit ingest (github_service.py, GitHubService.sync_commits) -/

/-- The per-commit input taken from the connector payload. -/
structure CommitData where
  sha : String
  message : String
  committedAt : Int
  deriving Repr

/-- The linking step of GitHubService.sync_commits for one commit:
ticket_keys = extract_ticket_keys(message); if ticket_keys is nonempty,
ticket = Ticket.objects.filter(user, key__in=ticket_keys).first() (the first
matching ticket in store order, or none); is_unlinked = (len(ticket_keys) == 0);
the commit row is stored with exactly these fields. -/
def syncCommit (tickets : List Ticket) (cd : CommitData) : Commit :=
  let ticketKeys := extract_ticket_keys cd.message
  let ticket : Option Ticket :=
    if ticketKeys.isEmpty then none
    else tickets.find? (fun t => decide (t.key ∈ ticketKeys))
  { sha := cd.sha
    message := cd.message
    committedAt := cd.committedAt
    ticket := ticket.map Ticket.tid
    extractedTicketKeys := ticketKeys
    is_unlinked := ticketKeys.length = 0 }

/-! ## Hygiene detector (analytics_service.py, detect_hygiene_issues) -/

/-- datetime.date(): truncation of a timestamp to its day (floor division,
as Python's //). -/
def toDate (t : Int) : Int := Int.fdiv t 86400

/-- Number of commits linked to the ticket with committed_at in the window
(the Commit.objects.filter(user, ticket, committed_at bounds).count() query
shared by rules 2 and 3 and analyze_ticket_effort). -/
def commitsForTicketInWindow (db : DB) (w : Window) (tid : Nat) : Nat :=
  (db.commits.filter fun c =>
    decide (c.ticket = some tid) && inWindow w c.committedAt).length

/-- Number of status_change activities for the ticket in the window. -/
def statusChangesForTicketInWindow (db : DB) (w : Window) (tid : Nat) : Nat :=
  (db.activities.filter fun a =>
    decide (a.activityType = "status_change") && decide (a.ticketId = tid) &&
      inWindow w a.activityAt).length

/-- Rule 1 query: in-window commits with is_unlinked = true. -/
def unlinkedCommitsInWindow (db : DB) (w : Window) : List Commit :=
  db.commits.filter fun c => c.is_unlinked && inWindow w c.committedAt

/-- Rule 2 query: distinct ticket ids having a status_change activity in the
window. -/
def statusChangeTicketIds (db : DB) (w : Window) : List Nat :=
  ((db.activities.filter fun a =>
      decide (a.activityType = "status_change") && inWindow w a.activityAt).map
    TicketActivity.ticketId).dedup

/-- Rule 3 query: distinct ticket ids having a worklog started in the window. -/
def worklogTicketIds (db : DB) (w : Window) : List Nat :=
  ((db.worklogs.filter fun l => inWindow w l.startedAt).map
    Worklog.ticketId).dedup

/-- Rule 4 query: distinct ticket ids of in-window commits whose ticket link
is set. -/
def commitTicketIds (db : DB) (w : Window) : List Nat :=
  ((db.commits.filter fun c => inWindow w c.committedAt).filterMap
    Commit.ticket).dedup

/-- The alerts the four rule scans of detect_hygiene_issues submit to
get_or_create, in source order (rule 1: commit_no_ticket per unlinked
in-window commit; rule 2: status_no_commit per status-changed ticket without
in-window commits; rule 3: time_no_code per worklogged ticket without
in-window commits; rule 4: stalled_ticket per committed ticket without
in-window status changes).  Which alerts are submitted depends only on the
record store and the window, never on the already-stored alerts. -/
def hygieneCandidates (db : DB) (w : Window) : List HygieneAlert :=
  ((unlinkedCommitsInWindow db w).map fun c =>
    { alertType := "commit_no_ticket", severity := "warning",
      ticketRef := none, commitRef := some c.sha,
      detectedForStart := toDate w.since, detectedForEnd := toDate w.til })
  ++ ((statusChangeTicketIds db w).filterMap fun tid =>
    if commitsForTicketInWindow db w tid = 0 then
      some { alertType := "status_no_commit", severity := "info",
             ticketRef := some tid, commitRef := none,
             detectedForStart := toDate w.since, detectedForEnd := toDate w.til }
    else none)
  ++ ((worklogTicketIds db w).filterMap fun tid =>
    if commitsForTicketInWindow db w tid = 0 then
      some { alertType := "time_no_code", severity := "info",
             ticketRef := some tid, commitRef := none,
             detectedForStart := toDate w.since, detectedForEnd := toDate w.til }
    else none)
  ++ ((commitTicketIds db w).filterMap fun tid =>
    if statusChangesForTicketInWindow db w tid = 0 then
      some { alertType := "stalled_ticket", severity := "warning",
             ticketRef := some tid, commitRef := none,
             detectedForStart := toDate w.since, detectedForEnd := toDate w.til }
    else none)

/-- The composite dedup key used by get_or_create (and by the explicit
exists-check of rule 3): alert_type, ticket or commit reference, and the
detection window dates.  The user is fixed per service instance. -/
def alertKey (a : HygieneAlert) : String × Option Nat × Option String × Int × Int :=
  (a.alertType, a.ticketRef, a.commitRef, a.detectedForStart, a.detectedForEnd)

/-- Whether an alert with the given dedup key is already stored. -/
def keyStored (store : List HygieneAlert) (k : String × Option Nat × Option String × Int × Int) : Bool :=
  store.any fun b => decide (alertKey b = k)

/-- HygieneAlert.objects.get_or_create keyed on alertKey (rule 3 spells the
same insert-if-absent out as an exists-check followed by create). -/
def getOrCreateAlert (store : List HygieneAlert) (a : HygieneAlert) : List HygieneAlert :=
  if keyStored store (alertKey a) then store else store ++ [a]

/-- AnalyticsService.detect_hygiene_issues: run the four scans, submitting
each candidate alert to get_or_create against the stored set.  The source
also returns the list of alerts created by the call; the claims only consult
the stored set, so the model returns the updated store. -/
def detect_hygiene_issues (db : DB) (w : Window) (store : List HygieneAlert) :
    List HygieneAlert :=
  (hygieneCandidates db w).foldl getOrCreateAlert store

/-! ## Aggregate statistics (report_service.py, ReportService._calculate_stats) -/

/-- Distinct ticket ids touched in the window: union of the ticket ids of
in-window linked commits, in-window activities and in-window worklogs (the
set built by _calculate_stats, _get_tickets_data and
get_effort_analysis_summary alike). -/
def touchedTicketIds (db : DB) (w : Window) : List Nat :=
  (((db.commits.filter fun c =>
        inWindow w c.committedAt && c.ticket.isSome).filterMap Commit.ticket)
    ++ ((db.activities.filter fun a => inWindow w a.activityAt).map
        TicketActivity.ticketId)
    ++ ((db.worklogs.filter fun l => inWindow w l.startedAt).map
        Worklog.ticketId)).dedup

/-- Leading-match test on character lists. -/
def startsWithChars : List Char → List Char → Bool
  | [], _ => true
  | _ :: _, [] => false
  | p :: ps, c :: cs => decide (p = c) && startsWithChars ps cs

/-- Unanchored substring test on character lists (regex search semantics). -/
def containsSub : List Char → List Char → Bool
  | [], pat => pat.isEmpty
  | c :: cs, pat => startsWithChars pat (c :: cs) || containsSub cs pat

/-- to_status__iregex=r'(done|closed|resolved|complete)': case-insensitive
unanchored match of any of the four words. -/
def completedToStatus (s : String) : Bool :=
  ["done", "closed", "resolved", "complete"].any fun p =>
    containsSub (pyLower s).data p.toList

/-- The exclude() clause of the non_code_activities query spans the
multi-valued ticket__commits reverse relation, and conditions of a single
exclude() across such a relation do not refer to the same related row:
Django splits them into independent subqueries.  The activity's ticket is
excluded when it has some commit with committed_at >= since and some —
possibly different — commit with committed_at <= until. -/
def ticketExcludedByCommitBounds (db : DB) (w : Window) (tid : Nat) : Bool :=
  (db.commits.any fun c =>
    decide (c.ticket = some tid) && decide (w.since ≤ c.committedAt)) &&
  (db.commits.any fun c =>
    decide (c.ticket = some tid) && decide (c.committedAt ≤ w.til))

/-- ReportService._format_time (identical code in AnalyticsService). -/
def format_time (seconds : Int) : String :=
  if seconds = 0 then "0h"
  else
    let hours := Int.fdiv seconds 3600
    let minutes := Int.fdiv (Int.fmod seconds 3600) 60
    if hours > 0 ∧ minutes > 0 then toString hours ++ "h " ++ toString minutes ++ "m"
    else if hours > 0 then toString hours ++ "h"
    else toString minutes ++ "m"

/-- The stats dict assembled by _calculate_stats. -/
structure Stats where
  total_commits : Nat
  unlinked_commits : Nat
  total_tickets : Nat
  tickets_completed : Nat
  total_time_logged_seconds : Int
  total_time_logged_display : String
  non_code_activities : Nat
  deriving Repr, DecidableEq

/-- ReportService._calculate_stats over the window, query by query in source
order. -/
def calculate_stats (db : DB) (w : Window) : Stats :=
  let totalCommits := (db.commits.filter fun c => inWindow w c.committedAt).length
  let unlinked := (db.commits.filter fun c =>
    inWindow w c.committedAt && c.is_unlinked).length
  let totalTickets := (touchedTicketIds db w).length
  let completed := (((db.activities.filter fun a =>
      decide (a.activityType = "status_change") && inWindow w a.activityAt &&
        completedToStatus a.toStatus).map TicketActivity.ticketId).dedup).length
  let totalTime := ((db.worklogs.filter fun l =>
    inWindow w l.startedAt).map Worklog.timeSpentSeconds).sum
  let nonCode := ((db.activities.filter fun a =>
      decide (a.activityType = "status_change") && inWindow w a.activityAt).filter
    fun a => !ticketExcludedByCommitBounds db w a.ticketId).length
  { total_commits := totalCommits
    unlinked_commits := unlinked
    total_tickets := totalTickets
    tickets_completed := completed
    total_time_logged_seconds := totalTime
    total_time_logged_display := format_time totalTime
    non_code_activities := nonCode }

/-! ## Summarizer (ai_service.py, generate_work_summary and the fallback) -/

/-- The date_range entry of the report document
({'start': since.strftime(...), 'end': until.strftime(...)}). -/
structure DateRangeStrings where
  rangeStart : String
  rangeEnd : String
  deriving Repr, DecidableEq

/-- The parts of report_data that generate_work_summary reads: the stats
dict, the date_range dict and the per-ticket detail (which only feeds the
prompt, never the fallback). -/
structure ReportData where
  stats : Stats
  dateRange : DateRangeStrings
  ticketLines : List String
  deriving Repr

/-- AIService._generate_fallback_summary: the deterministic templated
sentence, built from the stats and date_range alone. -/
def generate_fallback_summary (stats : Stats) (dr : DateRangeStrings) : String :=
  let intro := "Between " ++ dr.rangeStart ++ " and " ++ dr.rangeEnd
  let rest : List String :=
    (if stats.total_tickets > 0 then
      ["you worked on " ++ toString stats.total_tickets ++ " ticket(s)"] else [])
    ++ (if stats.total_commits > 0 then
      ["made " ++ toString stats.total_commits ++ " commit(s)"] else [])
    ++ (if stats.tickets_completed > 0 then
      ["completed " ++ toString stats.tickets_completed ++ " ticket(s)"] else [])
    ++ (if stats.total_time_logged_display ≠ "" then
      ["logged " ++ stats.total_time_logged_display] else [])
  let summary :=
    if rest.length > 0 then String.intercalate ", " rest
    else "no significant activity was recorded"
  intro ++ ", " ++ summary ++ "."

/-- AIService.generate_work_summary.  The OpenAI chat call is the external
collaborator; its outcome is passed in as an Except value: ok with the
message content on success, error for any raised exception.  On success the
content is stripped and returned; on failure the except-branch returns the
fallback built from stats and date_range. -/
def generate_work_summary (rd : ReportData) (clientResult : Except String String) :
    String :=
  match clientResult with
  | Except.ok content => content.trim
  | Except.error _ => generate_fallback_summary rd.stats rd.dateRange

/-! ## Unlinked-commit list (report_service.py, _get_unlinked_commits) -/

/-- One entry of the report document's unlinked_commits list. -/
structure UnlinkedEntry where
  sha : String
  message : String
  committedAt : Int
  tag : String
  deriving Repr, DecidableEq

/-- ReportService._get_unlinked_commits: every in-window commit stored with
is_unlinked = true, rendered with sha[:7], message[:100] and the fixed tag
string.  There is no cap in this query or in the returned list. -/
def get_unlinked_commits (db : DB) (w : Window) : List UnlinkedEntry :=
  (db.commits.filter fun c => c.is_unlinked && inWindow w c.committedAt).map
    fun c =>
      { sha := c.sha.take 7, message := c.message.take 100,
        committedAt := c.committedAt, tag := "unlinked-work" }

/-! ## Effort summary (analytics_service.py, get_effort_analysis_summary) -/

/-- AnalyticsService.analyze_ticket_effort, classification component: count
the ticket's in-window commits and status changes, sum its in-window worklog
seconds, and classify with the ticket's current status. -/
def analyze_ticket_effort (db : DB) (w : Window) (t : Ticket) : String :=
  generate_effort_analysis
    (commitsForTicketInWindow db w t.tid)
    (((db.worklogs.filter fun l =>
        decide (l.ticketId = t.tid) && inWindow w l.startedAt).map
      Worklog.timeSpentSeconds).sum)
    (statusChangesForTicketInWindow db w t.tid)
    t.status

/-- The analyses accumulator dict of get_effort_analysis_summary, whose keys
are the literal strings 'fast_wins', 'high_effort_low_output', 'stalled',
'normal'. -/
structure EffortBuckets where
  fast_wins : List Nat
  high_effort_low_output : List Nat
  stalled : List Nat
  normal : List Nat
  deriving Repr, DecidableEq

/-- analyses[classification].append(...): indexing the dict with the
classification string; none models the KeyError raised when the string is
not one of the four keys. -/
def addToBucket (b : EffortBuckets) (cls : String) (tid : Nat) :
    Option EffortBuckets :=
  if cls = "fast_wins" then some { b with fast_wins := b.fast_wins ++ [tid] }
  else if cls = "high_effort_low_output" then
    some { b with high_effort_low_output := b.high_effort_low_output ++ [tid] }
  else if cls = "stalled" then some { b with stalled := b.stalled ++ [tid] }
  else if cls = "normal" then some { b with normal := b.normal ++ [tid] }
  else none

/-- The summary returned by get_effort_analysis_summary: the four counts and
the bucketed details. -/
structure EffortSummary where
  fast_wins_count : Nat
  high_effort_low_output_count : Nat
  stalled_count : Nat
  normal_count : Nat
  details : EffortBuckets
  deriving Repr, DecidableEq

/-- AnalyticsService.get_effort_analysis_summary: for every distinct touched
ticket, look the ticket up, classify it and append it to
analyses[classification]; an unknown classification key raises KeyError
(modelled as Except.error carrying the offending key), a missing ticket
raises DoesNotExist. -/
def get_effort_analysis_summary (db : DB) (w : Window) :
    Except String EffortSummary :=
  let folded :=
    (touchedTicketIds db w).foldl
      (fun acc tid =>
        Except.bind acc fun b =>
          match db.tickets.find? (fun t => decide (t.tid = tid)) with
          | none => Except.error "Ticket.DoesNotExist"
          | some t =>
            match addToBucket b (analyze_ticket_effort db w t) tid with
            | none => Except.error (analyze_ticket_effort db w t)
            | some b2 => Except.ok b2)
      (Except.ok { fast_wins := [], high_effort_low_output := [],
                   stalled := [], normal := [] })
  folded.map fun b =>
    { fast_wins_count := b.fast_wins.length
      high_effort_low_output_count := b.high_effort_low_output.length
      stalled_count := b.stalled.length
      normal_count := b.normal.length
      details := b }

/-! ## Report document and store (report_service.py) -/

/-- The report document fields the claims consult (date range, stats,
unlinked commits, effort analysis).  The hygiene summary, per-ticket detail,
prose summary and markdown rendition are assembled alongside in
generate_report but are not read by any claim. -/
structure ReportDocument where
  dateRange : DateRangeStrings
  stats : Stats
  unlinked_commits : List UnlinkedEntry
  effort_analysis : EffortSummary
  deriving Repr, DecidableEq

/-- ReportService.generate_report (sync_first handled upstream): compute the
stats, the unlinked-commit list, run the hygiene detector against the stored
alert set, and run the effort summary (whose KeyError/DoesNotExist, if any,
propagates out of the generation).  Returns the document together with the
updated alert store. -/
def generate_report (db : DB) (w : Window) (dr : DateRangeStrings)
    (alertStore : List HygieneAlert) :
    Except String (ReportDocument × List HygieneAlert) :=
  let stats := calculate_stats db w
  let unlinked := get_unlinked_commits db w
  let store2 := detect_hygiene_issues db w alertStore
  match get_effort_analysis_summary db w with
  | Except.error e => Except.error e
  | Except.ok eff =>
    Except.ok
      ({ dateRange := dr, stats := stats, unlinked_commits := unlinked,
         effort_analysis := eff }, store2)

/-- A WeeklyReport row (core/models.py): the (start_date, end_date) key and
the six stat columns copied from the computed stats. -/
structure WeeklyReport where
  startDate : Int
  endDate : Int
  total_tickets : Nat
  total_commits : Nat
  tickets_completed : Nat
  total_time_logged_seconds : Int
  unlinked_commits : Nat
  non_code_activities : Nat
  deriving Repr, DecidableEq

/-- The WeeklyReport row written by create_weekly_report for the window. -/
def weeklyReportOf (db : DB) (w : Window) : WeeklyReport :=
  let stats := calculate_stats db w
  { startDate := toDate w.since
    endDate := toDate w.til
    total_tickets := stats.total_tickets
    total_commits := stats.total_commits
    tickets_completed := stats.tickets_completed
    total_time_logged_seconds := stats.total_time_logged_seconds
    unlinked_commits := stats.unlinked_commits
    non_code_activities := stats.non_code_activities }

/-- WeeklyReport.objects.update_or_create keyed on (user, start_date,
end_date): overwrite the stored row with that key, or append a new row.  The
unique_together constraint keeps at most one row per key. -/
def upsertReport (store : List WeeklyReport) (r : WeeklyReport) :
    List WeeklyReport :=
  if store.any (fun x => decide (x.startDate = r.startDate) &&
      decide (x.endDate = r.endDate)) then
    store.map fun x =>
      if x.startDate = r.startDate ∧ x.endDate = r.endDate then r else x
  else store ++ [r]

/-- ReportService.create_weekly_report: generate (the stats part) and upsert
the row for (start_date.date(), end_date.date()). -/
def create_weekly_report (db : DB) (w : Window) (store : List WeeklyReport) :
    WeeklyReport × List WeeklyReport :=
  let r := weeklyReportOf db w
  (r, upsertReport store r)

/-- ReportService.get_last_week_report:
WeeklyReport.objects.filter(user).first() under the model's ordering
['-start_date'] — a stored row of maximal start_date (none on an empty
store). -/
def reportMaxStep : Option WeeklyReport → WeeklyReport → Option WeeklyReport
  | none, x => some x
  | some b, x => if x.startDate > b.startDate then some x else some b

def get_last_week_report (store : List WeeklyReport) : Option WeeklyReport :=
  store.foldl reportMaxStep none

/-! ## Concrete records used by counterexamples and witnesses -/

/-- A connector commit whose message references a ticket key that resolves
to no stored ticket (spec scenario C). -/
def commitDataABC : CommitData :=
  { sha := "deadbeef", message := "Fix bug, refs ABC-42", committedAt := 5 }

/-- The row sync_commits stores for commitDataABC when the user has no
tickets. -/
def commitABC : Commit := syncCommit [] commitDataABC

/-- The store after ingesting commitDataABC for a user with no tickets. -/
def dbABC : DB :=
  { tickets := [], commits := [commitABC], activities := [], worklogs := [] }

def windowABC : Window := { since := 0, til := 10 }

def ticketAAA : Ticket := { tid := 1, key := "AAA-1", status := "To Do" }

def ticketBBB : Ticket := { tid := 2, key := "BBB-2", status := "In Progress" }

/-- A commit message referencing two distinct keys of two distinct stored
tickets. -/
def commitDataTwoKeys : CommitData :=
  { sha := "cafef00d", message := "AAA-1 BBB-2 touch both", committedAt := 3 }

/-! ## Theorems -/

/-- C1 counterexample: a ticket whose status is Done with 10 commits, no
time logged and zero status changes.  The claimed top-down policy (rule 2
carrying no status condition) classifies it high_effort_low_output, but the
code classifies it normal, because the high-effort branches are elif
alternatives to the status test. -/
theorem claim_C1_counterexample :
    generate_effort_analysis 10 0 0 "Done" = "normal" ∧
    claimEffortPolicy 10 0 0 "Done" = "high_effort_low_output" := by
  constructor <;> decide

/-- C1 as amended: the classifier equals the four-rule top-down policy
restricted so that the high_effort_low_output and stalled rules are only
reachable when the current status is not done/closed/resolved; a
done/closed/resolved ticket failing the fast_win thresholds is normal. -/
theorem claim_C1 (commitsCount : Nat) (timeLoggedSeconds : Int)
    (statusChanges : Nat) (status : String) :
    generate_effort_analysis commitsCount timeLoggedSeconds statusChanges status =
      amendedEffortPolicy commitsCount timeLoggedSeconds statusChanges status := by
  simp only [generate_effort_analysis, amendedEffortPolicy, hoursOf_pos_iff]
  split_ifs <;> first | rfl | tauto

/-- C2: the code violates the claimed invariant is_unlinked == (ticket is
null).  Ingesting a commit whose message yields key ABC-42 while the user
has no ticket ABC-42 stores ticket = none with is_unlinked = false (the code
sets is_unlinked from the extracted keys being empty, not from the link),
and the commit_no_ticket hygiene rule therefore creates no alert for a
window containing its committed_at. -/
theorem claim_C2 :
    commitABC.ticket = none ∧ commitABC.is_unlinked = false ∧
    detect_hygiene_issues dbABC windowABC [] = [] := by
  refine ⟨by decide, by decide, by decide⟩

theorem find?_eq_head?_filter {α : Type _} (p : α → Bool) (l : List α) :
    l.find? p = (l.filter p).head? := by
  induction l with
  | nil => rfl
  | cons a l ih =>
    cases h : p a with
    | true =>
      rw [List.find?_cons_of_pos _ h, List.filter_cons, h, if_pos rfl,
        List.head?_cons]
    | false =>
      rw [List.find?_cons_of_neg _ (by simp [h]), List.filter_cons, h,
        if_neg (by simp), ih]

/-- C4 counterexample: two distinct stored tickets AAA-1 and BBB-2 both have
their key among the commit's extracted keys, yet sync_commits binds the
first of them rather than leaving the commit unlinked as claimed. -/
theorem claim_C4_counterexample :
    (([ticketAAA, ticketBBB].filter fun t =>
      decide (t.key ∈ extract_ticket_keys commitDataTwoKeys.message)).length = 2) ∧
    (syncCommit [ticketAAA, ticketBBB] commitDataTwoKeys).ticket = some 1 := by
  constructor <;> decide

/-- C4 as amended: the linker binds the first stored ticket (in store order)
whose key is among the extracted keys whenever at least one matches, and
leaves the commit's link null exactly when no stored ticket's key is among
the extracted keys. -/
theorem claim_C4 (tickets : List Ticket) (cd : CommitData) :
    (syncCommit tickets cd).ticket =
      ((tickets.filter fun t =>
        decide (t.key ∈ extract_ticket_keys cd.message)).head?).map Ticket.tid ∧
    ((syncCommit tickets cd).ticket = none ↔
      ∀ t ∈ tickets, t.key ∉ extract_ticket_keys cd.message) := by
  have hfind : (syncCommit tickets cd).ticket =
      ((tickets.filter fun t =>
        decide (t.key ∈ extract_ticket_keys cd.message)).head?).map Ticket.tid := by
    simp only [syncCommit]
    by_cases he : (extract_ticket_keys cd.message).isEmpty = true
    · rw [if_pos he]
      rw [List.isEmpty_iff] at he
      simp [he]
    · rw [if_neg he, find?_eq_head?_filter]
  refine ⟨hfind, ?_⟩
  rw [hfind]
  constructor
  · intro h t ht hk
    have : (tickets.filter fun t =>
        decide (t.key ∈ extract_ticket_keys cd.message)) = [] := by
      cases hl : (tickets.filter fun t =>
          decide (t.key ∈ extract_ticket_keys cd.message)) with
      | nil => rfl
      | cons x xs => rw [hl] at h; simp at h
    have := List.filter_eq_nil_iff.mp this t ht
    simp at this
    exact this hk
  · intro h
    have : (tickets.filter fun t =>
        decide (t.key ∈ extract_ticket_keys cd.message)) = [] := by
      rw [List.filter_eq_nil_iff]
      intro t ht
      simp
      exact h t ht
    simp [this]

theorem keyStored_getOrCreate (store : List HygieneAlert) (a : HygieneAlert)
    (k : String × Option Nat × Option String × Int × Int)
    (h : keyStored store k = true) :
    keyStored (getOrCreateAlert store a) k = true := by
  unfold getOrCreateAlert
  split
  · exact h
  · unfold keyStored at h ⊢
    simp only [List.any_append, h, Bool.true_or]

theorem keyStored_getOrCreate_self (store : List HygieneAlert) (a : HygieneAlert) :
    keyStored (getOrCreateAlert store a) (alertKey a) = true := by
  unfold getOrCreateAlert
  split
  · assumption
  · unfold keyStored
    simp

theorem keyStored_foldl (l : List HygieneAlert) (store : List HygieneAlert)
    (k : String × Option Nat × Option String × Int × Int)
    (h : keyStored store k = true) :
    keyStored (l.foldl getOrCreateAlert store) k = true := by
  induction l generalizing store with
  | nil => exact h
  | cons a l ih => exact ih _ (keyStored_getOrCreate _ _ _ h)

theorem keyStored_foldl_mem (l : List HygieneAlert) (store : List HygieneAlert)
    (a : HygieneAlert) (ha : a ∈ l) :
    keyStored (l.foldl getOrCreateAlert store) (alertKey a) = true := by
  induction l generalizing store with
  | nil => cases ha
  | cons b l ih =>
    rcases List.mem_cons.mp ha with rfl | ha2
    · exact keyStored_foldl l _ _ (keyStored_getOrCreate_self store a)
    · exact ih _ ha2

theorem foldl_getOrCreate_of_stored (l : List HygieneAlert)
    (store : List HygieneAlert)
    (h : ∀ a ∈ l, keyStored store (alertKey a) = true) :
    l.foldl getOrCreateAlert store = store := by
  induction l with
  | nil => rfl
  | cons a l ih =>
    have h1 : getOrCreateAlert store a = store := by
      unfold getOrCreateAlert
      rw [if_pos (h a (List.mem_cons_self a l))]
    rw [List.foldl_cons, h1]
    exact ih fun b hb => h b (List.mem_cons_of_mem a hb)

theorem keysNodup_getOrCreate (store : List HygieneAlert) (a : HygieneAlert)
    (h : (store.map alertKey).Nodup) :
    ((getOrCreateAlert store a).map alertKey).Nodup := by
  unfold getOrCreateAlert
  split
  · exact h
  · next hc =>
    rw [List.map_append]
    refine List.Nodup.append h (List.nodup_singleton _) ?_
    intro k hk1 hk2
    rcases List.mem_map.mp hk1 with ⟨b, hb, rfl⟩
    have heq : alertKey b = alertKey a := List.mem_singleton.mp hk2
    unfold keyStored at hc
    rw [List.any_eq_true] at hc
    exact hc ⟨b, hb, by simp [heq]⟩

theorem keysNodup_foldl (l : List HygieneAlert) (store : List HygieneAlert)
    (h : (store.map alertKey).Nodup) :
    (((l.foldl getOrCreateAlert store)).map alertKey).Nodup := by
  induction l generalizing store with
  | nil => exact h
  | cons a l ih => exact ih _ (keysNodup_getOrCreate _ _ h)

/-- C3: the hygiene detector is idempotent on the stored alert set — running
detect_hygiene_issues a second time with the same user, record store and
window changes nothing (so the total alert count is also unchanged), and if
the stored alerts had pairwise-distinct dedup keys (alert_type,
ticket-or-commit, window) before the run, they still do afterwards: each
rule leaves at most one alert per key. -/
theorem claim_C3 (db : DB) (w : Window) (store : List HygieneAlert)
    (h : (store.map alertKey).Nodup) :
    detect_hygiene_issues db w (detect_hygiene_issues db w store) =
      detect_hygiene_issues db w store ∧
    (detect_hygiene_issues db w (detect_hygiene_issues db w store)).length =
      (detect_hygiene_issues db w store).length ∧
    ((detect_hygiene_issues db w store).map alertKey).Nodup := by
  have h1 : detect_hygiene_issues db w (detect_hygiene_issues db w store) =
      detect_hygiene_issues db w store := by
    unfold detect_hygiene_issues
    exact foldl_getOrCreate_of_stored _ _ fun a ha => keyStored_foldl_mem _ _ _ ha
  exact ⟨h1, by rw [h1], keysNodup_foldl _ _ h⟩

/-- A record store that makes all four hygiene rules fire: an unlinked
in-window commit, a linked in-window commit on ticket 1 with no status
change, and a status change plus worklog on ticket 2 with no commits. -/
def dbHyg : DB :=
  { tickets := [{ tid := 1, key := "PROJ-1", status := "In Progress" },
                { tid := 2, key := "PROJ-2", status := "To Do" }]
    commits := [{ sha := "aaa1111", message := "wip", committedAt := 1,
                  ticket := none, extractedTicketKeys := [], is_unlinked := true },
                { sha := "bbb2222", message := "PROJ-1 work", committedAt := 2,
                  ticket := some 1, extractedTicketKeys := ["PROJ-1"],
                  is_unlinked := false }]
    activities := [{ ticketId := 2, activityType := "status_change",
                     toStatus := "In Progress", activityAt := 3 }]
    worklogs := [{ ticketId := 2, timeSpentSeconds := 600, startedAt := 4 }] }

def wHyg : Window := { since := 0, til := 10 }

theorem claim_C3_witness :
    (([] : List HygieneAlert).map alertKey).Nodup ∧
    (detect_hygiene_issues dbHyg wHyg (detect_hygiene_issues dbHyg wHyg []) =
      detect_hygiene_issues dbHyg wHyg [] ∧
    (detect_hygiene_issues dbHyg wHyg (detect_hygiene_issues dbHyg wHyg [])).length =
      (detect_hygiene_issues dbHyg wHyg []).length ∧
    ((detect_hygiene_issues dbHyg wHyg []).map alertKey).Nodup) :=
  ⟨by decide, claim_C3 dbHyg wHyg [] (by decide)⟩

/-- A store in which one ticket carries two in-window status changes and no
commits: the non_code_activities statistic counts both rows. -/
def dbRows : DB :=
  { tickets := [{ tid := 1, key := "PROJ-1", status := "To Do" }]
    commits := []
    activities := [{ ticketId := 1, activityType := "status_change",
                     toStatus := "In Progress", activityAt := 2 },
                   { ticketId := 1, activityType := "status_change",
                     toStatus := "To Do", activityAt := 3 }]
    worklogs := [] }

def wRows : Window := { since := 0, til := 10 }

/-- A store whose only ticket has commits that merely straddle the window
(one before since, one after until) plus one in-window status change: the
split subqueries of the exclude() both find a commit, so the code counts 0,
while the single-commit-in-window reading counts 1. -/
def dbStraddle : DB :=
  { tickets := [{ tid := 1, key := "PROJ-1", status := "In Progress" }]
    commits := [{ sha := "00straddle0", message := "PROJ-1 early", committedAt := -5,
                  ticket := some 1, extractedTicketKeys := ["PROJ-1"],
                  is_unlinked := false },
                { sha := "00straddle1", message := "PROJ-1 late", committedAt := 15,
                  ticket := some 1, extractedTicketKeys := ["PROJ-1"],
                  is_unlinked := false }]
    activities := [{ ticketId := 1, activityType := "status_change",
                     toStatus := "In Review", activityAt := 5 }]
    worklogs := [] }

/-- C5 counterexample: the claim reads the exclusion as "the ticket has no
commit with committed_at in [since, until]", but on the store whose ticket
has only straddling commits (committed at -5 and 15 around the window
[0, 10]) the code's non_code_activities is 0 — the exclude() spanning the
multi-valued ticket__commits relation tests its two bounds by independent
subqueries — while the claimed single-commit-in-window count is 1. -/
theorem claim_C5_counterexample :
    (calculate_stats dbStraddle wRows).non_code_activities = 0 ∧
    dbStraddle.activities.countP (fun a =>
      decide (a.activityType = "status_change") && inWindow wRows a.activityAt &&
      !(dbStraddle.commits.any fun c =>
          decide (c.ticket = some a.ticketId) && inWindow wRows c.committedAt)) = 1 := by
  constructor <;> decide

/-- C5 as amended: the non_code_activities statistic equals the number of
status_change activity rows with activity_at in the window whose ticket does
not have both some commit with committed_at >= since and some — possibly
different — commit with committed_at <= until (the two bounds of the
exclude() are tested by independent subqueries over the ticket's whole
commit set, since the clause spans the multi-valued ticket__commits
relation), evaluated independently per status_change row; rows are counted,
not distinct tickets (the concrete store with two status-change rows on one
commitless ticket counts 2). -/
theorem claim_C5 :
    (∀ (db : DB) (w : Window),
      (calculate_stats db w).non_code_activities =
        db.activities.countP fun a =>
          decide (a.activityType = "status_change") && inWindow w a.activityAt &&
          !((db.commits.any fun c =>
              decide (c.ticket = some a.ticketId) &&
                decide (w.since ≤ c.committedAt)) &&
            (db.commits.any fun c =>
              decide (c.ticket = some a.ticketId) &&
                decide (c.committedAt ≤ w.til)))) ∧
    (calculate_stats dbRows wRows).non_code_activities = 2 := by
  refine ⟨fun db w => ?_, by decide⟩
  simp only [calculate_stats, ticketExcludedByCommitBounds]
  rw [List.countP_eq_length_filter, List.filter_filter]
  congr 1
  apply List.filter_congr
  intro a _
  cases decide (a.activityType = "status_change") <;>
    cases inWindow w a.activityAt <;>
    cases (db.commits.any fun c =>
      decide (c.ticket = some a.ticketId) && decide (w.since ≤ c.committedAt)) <;>
    cases (db.commits.any fun c =>
      decide (c.ticket = some a.ticketId) && decide (c.committedAt ≤ w.til)) <;>
    rfl

/-- The stats of a week with 4 tickets, 10 commits and 3h 20m logged, used
to exercise the fallback template. -/
def statsC6 : Stats :=
  { total_commits := 10, unlinked_commits := 3, total_tickets := 4,
    tickets_completed := 0, total_time_logged_seconds := 12000,
    total_time_logged_display := format_time 12000, non_code_activities := 0 }

/-- C6: whenever the summarizer client raises, generate_work_summary returns
the deterministic templated fallback built from the already-computed stats
and date range alone — the same report data with any other ticket detail and
any other raised error produces the same string — and in particular always
returns a summary string (witnessed by the concrete template output). -/
theorem claim_C6 :
    (∀ (rd : ReportData) (e : String),
      generate_work_summary rd (Except.error e) =
        generate_fallback_summary rd.stats rd.dateRange) ∧
    (∀ (st : Stats) (dr : DateRangeStrings) (tl tl2 : List String) (e e2 : String),
      generate_work_summary { stats := st, dateRange := dr, ticketLines := tl }
          (Except.error e) =
        generate_work_summary { stats := st, dateRange := dr, ticketLines := tl2 }
          (Except.error e2)) ∧
    generate_work_summary
        { stats := statsC6,
          dateRange := { rangeStart := "2024-01-01", rangeEnd := "2024-01-07" },
          ticketLines := ["PROJ-1: fix"] }
        (Except.error "timeout") =
      "Between 2024-01-01 and 2024-01-07, you worked on 4 ticket(s), made 10 commit(s), logged 3h 20m." := by
  exact ⟨fun rd e => rfl, fun st dr tl tl2 e e2 => rfl, by decide⟩

/-- C9: extract_ticket_keys returns the distinct matches of the pattern
[A-Z]+-[0-9]+ as a set — its result has no duplicates and carries exactly
the matched substrings, so duplicate occurrences and their order in the
message cannot change the returned set; in particular a message containing
PROJ-1 twice yields exactly {PROJ-1}. -/
theorem claim_C9 :
    (∀ m : String,
      (extract_ticket_keys m).toFinset = (findTicketMatches m).toFinset ∧
      (extract_ticket_keys m).Nodup) ∧
    extract_ticket_keys "see PROJ-1 and PROJ-1" = ["PROJ-1"] := by
  refine ⟨fun m => ⟨?_, List.nodup_dedup _⟩, by decide⟩
  ext a
  simp [extract_ticket_keys, List.mem_toFinset, List.mem_dedup]

theorem reportMax_keeps (l : List WeeklyReport) (b : WeeklyReport)
    (h : ∀ x ∈ l, x.startDate ≤ b.startDate) :
    l.foldl reportMaxStep (some b) = some b := by
  induction l with
  | nil => rfl
  | cons x l ih =>
    rw [List.foldl_cons]
    have hx := h x (List.mem_cons_self x l)
    have hstep : reportMaxStep (some b) x = some b := by
      simp only [reportMaxStep]
      rw [if_neg (by omega)]
    rw [hstep]
    exact ih fun y hy => h y (List.mem_cons_of_mem x hy)

theorem reportMax_reaches :
    ∀ (l : List WeeklyReport) (b r : WeeklyReport),
      b.startDate < r.startDate → r ∈ l →
      (∀ y ∈ l, y.startDate ≤ r.startDate) →
      (∀ y ∈ l, y.startDate = r.startDate → y = r) →
      l.foldl reportMaxStep (some b) = some r := by
  intro l
  induction l with
  | nil =>
    intro b r _ hr _ _
    cases hr
  | cons z l ih =>
    intro b r hb hr hmax htie
    rw [List.foldl_cons]
    by_cases hz : z = r
    · subst hz
      have hstep : reportMaxStep (some b) z = some z := by
        simp only [reportMaxStep]
        rw [if_pos hb]
      rw [hstep]
      exact reportMax_keeps l z fun y hy => hmax y (List.mem_cons_of_mem z hy)
    · have hzr : z.startDate < r.startDate := by
        have h1 := hmax z (List.mem_cons_self z l)
        rcases lt_or_eq_of_le h1 with h2 | h2
        · exact h2
        · exact absurd (htie z (List.mem_cons_self z l) h2) hz
      have hr2 : r ∈ l := by
        rcases List.mem_cons.mp hr with h2 | h2
        · exact absurd h2.symm hz
        · exact h2
      have hmax2 : ∀ y ∈ l, y.startDate ≤ r.startDate :=
        fun y hy => hmax y (List.mem_cons_of_mem z hy)
      have htie2 : ∀ y ∈ l, y.startDate = r.startDate → y = r :=
        fun y hy => htie y (List.mem_cons_of_mem z hy)
      have hstep : reportMaxStep (some b) z =
          if z.startDate > b.startDate then some z else some b := by
        simp only [reportMaxStep]
      rw [hstep]
      by_cases hc : z.startDate > b.startDate
      · rw [if_pos hc]
        exact ih z r hzr hr2 hmax2 htie2
      · rw [if_neg hc]
        exact ih b r hb hr2 hmax2 htie2

theorem getLast_eq_max (l : List WeeklyReport) (r : WeeklyReport)
    (hr : r ∈ l) (hmax : ∀ y ∈ l, y.startDate ≤ r.startDate)
    (htie : ∀ y ∈ l, y.startDate = r.startDate → y = r) :
    get_last_week_report l = some r := by
  cases l with
  | nil => cases hr
  | cons z l =>
    unfold get_last_week_report
    rw [List.foldl_cons]
    have hstep : reportMaxStep none z = some z := rfl
    rw [hstep]
    by_cases hz : z = r
    · subst hz
      exact reportMax_keeps l z fun y hy => hmax y (List.mem_cons_of_mem z hy)
    · have hzr : z.startDate < r.startDate := by
        have h1 := hmax z (List.mem_cons_self z l)
        rcases lt_or_eq_of_le h1 with h2 | h2
        · exact h2
        · exact absurd (htie z (List.mem_cons_self z l) h2) hz
      have hr2 : r ∈ l := by
        rcases List.mem_cons.mp hr with h2 | h2
        · exact absurd h2.symm hz
        · exact h2
      exact reportMax_reaches l z r hzr hr2
        (fun y hy => hmax y (List.mem_cons_of_mem z hy))
        (fun y hy => htie y (List.mem_cons_of_mem z hy))

/-- The six stat columns of a stored WeeklyReport row agreeing with a
computed stats record. -/
def reportMatchesStats (r : WeeklyReport) (s : Stats) : Prop :=
  r.total_tickets = s.total_tickets ∧ r.total_commits = s.total_commits ∧
  r.tickets_completed = s.tickets_completed ∧
  r.total_time_logged_seconds = s.total_time_logged_seconds ∧
  r.unlinked_commits = s.unlinked_commits ∧
  r.non_code_activities = s.non_code_activities

/-- C7: after create_weekly_report for a window — whether the row for
(start_date, end_date) is created or overwrites an existing one — if the
written report's start_date is maximal in the store (every other stored row
has start_date at most this one, rows tying it being the overwritten row
itself), then get_last_week_report returns exactly the written row, whose
six stat columns equal the stats just computed for the window. -/
theorem claim_C7 (db : DB) (w : Window) (store : List WeeklyReport)
    (H : ∀ x ∈ store, x.startDate ≤ toDate w.since ∧
      (x.startDate = toDate w.since → x.endDate = toDate w.til)) :
    get_last_week_report (create_weekly_report db w store).2 =
      some (create_weekly_report db w store).1 ∧
    reportMatchesStats (create_weekly_report db w store).1 (calculate_stats db w) := by
  refine ⟨?_, ⟨rfl, rfl, rfl, rfl, rfl, rfl⟩⟩
  have hrs : (weeklyReportOf db w).startDate = toDate w.since := rfl
  have hre : (weeklyReportOf db w).endDate = toDate w.til := rfl
  show get_last_week_report (upsertReport store (weeklyReportOf db w)) =
    some (weeklyReportOf db w)
  set r := weeklyReportOf db w with hr
  unfold upsertReport
  split
  · next hany =>
    rcases List.any_eq_true.mp hany with ⟨x, hx, hxk⟩
    rw [Bool.and_eq_true, decide_eq_true_eq, decide_eq_true_eq] at hxk
    apply getLast_eq_max
    · refine List.mem_map.mpr ⟨x, hx, ?_⟩
      rw [if_pos hxk]
    · intro y hy
      rcases List.mem_map.mp hy with ⟨x2, hx2, rfl⟩
      split
      · exact le_refl _
      · rw [hrs]
        exact (H x2 hx2).1
    · intro y hy hys
      rcases List.mem_map.mp hy with ⟨x2, hx2, rfl⟩
      revert hys
      split
      · intro _
        rfl
      · next hcond =>
        intro hys
        rw [hrs] at hys
        exact absurd ⟨hys, by rw [hre]; exact (H x2 hx2).2 hys⟩ hcond
  · next hany =>
    apply getLast_eq_max
    · exact List.mem_append.mpr (Or.inr (List.mem_singleton.mpr rfl))
    · intro y hy
      rcases List.mem_append.mp hy with h2 | h2
      · rw [hrs]
        exact (H y h2).1
      · rw [List.mem_singleton.mp h2]
    · intro y hy hys
      rcases List.mem_append.mp hy with h2 | h2
      · exfalso
        apply hany
        rw [List.any_eq_true]
        refine ⟨y, h2, ?_⟩
        rw [Bool.and_eq_true, decide_eq_true_eq, decide_eq_true_eq]
        rw [hrs] at hys
        exact ⟨hys, by rw [hre]; exact (H y h2).2 hys⟩
      · exact List.mem_singleton.mp h2

/-- A stored report strictly older than the fresh window. -/
def oldReport : WeeklyReport :=
  { startDate := -1, endDate := -1, total_tickets := 0, total_commits := 0,
    tickets_completed := 0, total_time_logged_seconds := 0,
    unlinked_commits := 0, non_code_activities := 0 }

theorem claim_C7_witness :
    (oldReport.startDate ≤ toDate wRows.since ∧
      (oldReport.startDate = toDate wRows.since →
        oldReport.endDate = toDate wRows.til)) ∧
    (get_last_week_report (create_weekly_report dbRows wRows [oldReport]).2 =
      some (create_weekly_report dbRows wRows [oldReport]).1 ∧
    reportMatchesStats (create_weekly_report dbRows wRows [oldReport]).1
      (calculate_stats dbRows wRows)) :=
  ⟨by decide, claim_C7 dbRows wRows [oldReport] (by
    intro x hx
    rw [List.mem_singleton.mp hx]
    exact ⟨by decide, by decide⟩)⟩

/-- A store with eleven unlinked in-window commits and nothing else. -/
def dbEleven : DB :=
  { tickets := []
    commits := (List.range 11).map fun i =>
      { sha := toString i, message := "wip", committedAt := 1,
        ticket := none, extractedTicketKeys := [], is_unlinked := true }
    activities := []
    worklogs := [] }

def drEleven : DateRangeStrings :=
  { rangeStart := "2024-01-01", rangeEnd := "2024-01-07" }

/-- The value generate_report produces for dbEleven. -/
def reportEleven : ReportDocument × List HygieneAlert :=
  ({ dateRange := drEleven
     stats := calculate_stats dbEleven wRows
     unlinked_commits := get_unlinked_commits dbEleven wRows
     effort_analysis :=
      { fast_wins_count := 0, high_effort_low_output_count := 0,
        stalled_count := 0, normal_count := 0,
        details := { fast_wins := [], high_effort_low_output := [],
                     stalled := [], normal := [] } } },
   detect_hygiene_issues dbEleven wRows [])

/-- C8 counterexample: a window holding eleven unlinked commits yields a
report document whose unlinked_commits list has eleven entries — the per-
document list is not capped at the display limit of 10 (only the markdown
rendition truncates to 10 when printing). -/
theorem claim_C8_counterexample :
    (generate_report dbEleven wRows drEleven []).isOk = true ∧
    (get_unlinked_commits dbEleven wRows).length = 11 := by
  constructor <;> decide

/-- C8 as amended: the document's unlinked_commits list is exactly the
_get_unlinked_commits result — one entry per in-window unlinked commit, with
no cap (only the markdown rendition shows at most 10) — and every entry is
tagged unlinked-work. -/
theorem claim_C8 :
    (∀ (db : DB) (w : Window),
      ((get_unlinked_commits db w).all fun e =>
        decide (e.tag = "unlinked-work")) = true ∧
      (get_unlinked_commits db w).length =
        (db.commits.filter fun c =>
          c.is_unlinked && inWindow w c.committedAt).length) ∧
    (∀ (db : DB) (w : Window) (dr : DateRangeStrings)
        (store : List HygieneAlert) (doc : ReportDocument)
        (store2 : List HygieneAlert),
      generate_report db w dr store = Except.ok (doc, store2) →
      doc.unlinked_commits = get_unlinked_commits db w) := by
  constructor
  · intro db w
    constructor
    · rw [List.all_eq_true]
      intro e he
      rcases List.mem_map.mp he with ⟨c, _, rfl⟩
      simp
    · exact List.length_map _ _
  · intro db w dr store doc store2 hgen
    unfold generate_report at hgen
    cases heff : get_effort_analysis_summary db w with
    | error e =>
      rw [heff] at hgen
      cases hgen
    | ok effv =>
      rw [heff] at hgen
      cases hgen
      rfl

theorem claim_C8_witness :
    generate_report dbEleven wRows drEleven [] =
      Except.ok (reportEleven.1, reportEleven.2) ∧
    reportEleven.1.unlinked_commits = get_unlinked_commits dbEleven wRows :=
  ⟨by rfl,
    claim_C8.2 dbEleven wRows drEleven [] reportEleven.1 reportEleven.2 (by rfl)⟩

/-- A store whose only touched ticket classifies as fast_win: a Done ticket
with one in-window status change, no commits and no worklogs. -/
def dbFastWin : DB :=
  { tickets := [{ tid := 1, key := "PROJ-9", status := "Done" }]
    commits := []
    activities := [{ ticketId := 1, activityType := "status_change",
                     toStatus := "Done", activityAt := 2 }]
    worklogs := [] }

/-- The error component of an effort-summary outcome (none on success). -/
def effortSummaryError : Except String EffortSummary → Option String
  | Except.error e => some e
  | Except.ok _ => none

theorem analyze_ticket_effort_eq_decider (db : DB) (w : Window) (t : Ticket) :
    analyze_ticket_effort db w t =
      effortDecider (commitsForTicketInWindow db w t.tid)
        (((db.worklogs.filter fun l =>
            decide (l.ticketId = t.tid) && inWindow w l.startedAt).map
          Worklog.timeSpentSeconds).sum)
        (statusChangesForTicketInWindow db w t.tid) t.status := by
  unfold analyze_ticket_effort
  exact generate_effort_analysis_eq_decider _ _ _ _

/-- C10: the bucketing is broken by a key mismatch — the classifier returns
the string fast_win but the analyses dict's key is fast_wins, so
get_effort_analysis_summary raises KeyError (modelled as Except.error
"fast_win") as soon as any touched ticket classifies as fast_win, instead of
placing the ticket in the fast_wins bucket; the four counts therefore cannot
be produced for such windows at all. -/
theorem claim_C10 :
    effortSummaryError (get_effort_analysis_summary dbFastWin wRows) =
      some "fast_win" ∧
    analyze_ticket_effort dbFastWin wRows
      { tid := 1, key := "PROJ-9", status := "Done" } = "fast_win" ∧
    addToBucket { fast_wins := [], high_effort_low_output := [],
                  stalled := [], normal := [] } "fast_win" 1 = none := by
  refine ⟨?_, ?_, by decide⟩
  · simp only [get_effort_analysis_summary, analyze_ticket_effort_eq_decider]
    decide
  · rw [analyze_ticket_effort_eq_decider]
    decide

end SWS
